import Mathlib

/-!
Verification of the PowerBI-Activity analytics assistant.

This file gives a shallow embedding, in Lean 4, of the core logic of the
repository (credential provider, DAX query executor, schema discovery,
documentation retriever, fast-metrics calculator, insights cache, and the
comparison tool), translated from `src/dax_agent.py`, `src/powerbi.py` and
`src/powerbi_new.py`, and proves or refutes the specification claims about
them.

Modelling conventions:
* Python `(value, error)` pairs become Lean pairs of `Option`s;
  Python exceptions inside a `try` block become `Except String` values.
* HTTP transports, the identity provider and the LLM are oracle parameters,
  so that theorems quantify over every possible remote behaviour.
* Machine integers/floats are modelled as `Int`/`ℚ`; JSON numeric scalars are
  modelled as integers (no claim below depends on non-integral values).
* Python truthiness is modelled explicitly (`pyTruthyS`, `jtruthy`).
-/

/-! ## Python-style string primitives -/

/-- `startsWithL needle hay`: does `hay` start with `needle`? -/
def startsWithL : List Char → List Char → Bool
  | [], _ => true
  | _ :: _, [] => false
  | a :: as, b :: bs => a = b && startsWithL as bs

/-- `containsL hay needle`: Python's substring test `needle in hay`. -/
def containsL : List Char → List Char → Bool
  | [], needle => startsWithL needle []
  | a :: t, needle => startsWithL needle (a :: t) || containsL t needle

/-- Python `needle in hay` on strings. -/
def strContains (hay needle : String) : Bool :=
  containsL hay.data needle.data

/-- Python `str.lower()` (adequate for the ASCII data in this repository). -/
def pyLower (s : String) : String :=
  String.mk (s.data.map Char.toLower)

/-- Splitter core for `pySplit`: the separator is `s0 :: stl` (non-empty); the
fuel is an upper bound on the scanned list's length (each step strictly
shortens the list, so initialising the fuel with the length suffices). -/
def splitOnCharsAux (s0 : Char) (stl : List Char) :
    Nat → List Char → List Char → List (List Char)
  | _, [], acc => [acc.reverse]
  | 0, l, acc => [acc.reverse ++ l]
  | fuel + 1, c :: rest, acc =>
    if startsWithL (s0 :: stl) (c :: rest) then
      acc.reverse :: splitOnCharsAux s0 stl fuel ((c :: rest).drop (s0 :: stl).length) []
    else
      splitOnCharsAux s0 stl fuel rest (c :: acc)

/-- Python `s.split(sep)` (Python raises on an empty separator; that case is
never exercised here). -/
def pySplit (s sep : String) : List String :=
  match sep.data with
  | [] => [s]
  | s0 :: stl => (splitOnCharsAux s0 stl s.data.length s.data []).map String.mk

/-- Python `s.rstrip(c)`. -/
def pyRstrip (s : String) (c : Char) : String :=
  String.mk (s.data.reverse.dropWhile (· == c)).reverse

/-- Python `sep.join(parts)`. -/
def pyJoin (sep : String) : List String → String
  | [] => ""
  | [s] => s
  | s :: t :: rest => s ++ sep ++ pyJoin sep (t :: rest)

/-- Structural core of `pyDedup`; the fuel is an upper bound on the list
length, so it never runs out when initialised with the length itself. -/
def pyDedupFuel [DecidableEq α] : Nat → List α → List α
  | _, [] => []
  | 0, l => l
  | fuel + 1, x :: xs => x :: pyDedupFuel fuel (xs.filter (· ≠ x))

/-- Python `list(dict.fromkeys(l))`: deduplicate keeping first occurrences. -/
def pyDedup [DecidableEq α] (l : List α) : List α :=
  pyDedupFuel l.length l

/-- Truthiness of an optional Python string (`None` and `""` are falsy). -/
def pyTruthyS : Option String → Bool
  | none => false
  | some s => s ≠ ""

/-! ## Python dicts as association lists (insertion order preserved) -/

/-- Python `d[k]`-style lookup returning `None` on absence (`d.get(k)`). -/
def dictGet? [DecidableEq κ] : List (κ × β) → κ → Option β
  | [], _ => none
  | (k', v') :: rest, k => if k' = k then some v' else dictGet? rest k

/-- Python `d[k] = v`: replace in place if present, else append. -/
def dictInsert [DecidableEq κ] : List (κ × β) → κ → β → List (κ × β)
  | [], k, v => [(k, v)]
  | (k', v') :: rest, k, v =>
    if k' = k then (k, v) :: rest else (k', v') :: dictInsert rest k v

/-! ## A JSON model for response bodies -/

/-- JSON values as delivered by the remote engine.  Numeric scalars are
modelled as integers. -/
inductive Json where
  | null
  | bool' (b : Bool)
  | int' (n : Int)
  | str (s : String)
  | arr (elems : List Json)
  | obj (fields : List (String × Json))

/-- Python truthiness of a JSON value. -/
def jtruthy : Json → Bool
  | .null => false
  | .bool' b => b
  | .int' n => n ≠ 0
  | .str s => s ≠ ""
  | .arr l => !l.isEmpty
  | .obj l => !l.isEmpty

/-- Truthiness of `Option Json` (`None` is falsy). -/
def jtruthyOpt : Option Json → Bool
  | none => false
  | some j => jtruthy j

/-- Python `d.get(key, default)`; raises (`Except.error`) when the receiver is
not a dict, as Python would (`AttributeError`). -/
def pyGetD : Json → String → Json → Except String Json
  | .obj fields, key, default' =>
    .ok ((dictGet? fields key).getD default')
  | _, _, _ => .error "AttributeError"

/-- Python `x[i]` on a decoded JSON value.  Indexing anything that does not
eventually yield usable structure in the source's `try` blocks raises there;
we model all such cases as the exception the block would end in. -/
def pyIndexJ : Json → Nat → Except String Json
  | .arr l, i =>
    match l.get? i with
    | some v => .ok v
    | none => .error "IndexError"
  | _, _ => .error "TypeError"

/-- Python `list(row.keys())` (field order preserved). -/
def pyKeys : Json → Except String (List String)
  | .obj fields => .ok (fields.map Prod.fst)
  | _ => .error "AttributeError"

/-- Python `list(row.values())[0]`. -/
def pyFirstVal : Json → Except String Json
  | .obj fields =>
    match fields with
    | [] => .error "IndexError"
    | (_, v) :: _ => .ok v
  | _ => .error "AttributeError"

/-- Python `str()` of a JSON scalar (as interpolated into messages). -/
def pyStrJ : Json → String
  | .null => "None"
  | .bool' b => if b then "True" else "False"
  | .int' n => toString n
  | .str s => s
  | .arr _ => "<list>"
  | .obj _ => "<dict>"

/-! ## Configuration and credential provider (`get_powerbi_access_token`)

Translated from `src/dax_agent.py` lines 87-109 (the copies in
`src/powerbi.py` / `src/powerbi_new.py` are identical).  Environment values
are `Option String` (`os.getenv` yields `None` or a string); the MSAL
identity-provider exchange is an oracle, and the returned `Nat` counts the
identity-provider network calls the function performed. -/

structure PbiConfig where
  aadTenantId : Option String
  aadClientId : Option String
  aadClientSecret : Option String
  workspaceId : Option String
  datasetId : Option String

/-- Possible outcomes of `msal.ConfidentialClientApplication.acquire_token_for_client`. -/
inductive TokenResp where
  | hasToken (tok : String)
  | errResp (desc : Option String)
  | raised (msg : String)

/-- `get_powerbi_access_token`: returns `((token?, error?), identity-provider calls)`. -/
def getPowerBIAccessToken (cfg : PbiConfig) (idp : Unit → TokenResp) :
    (Option String × Option String) × Nat :=
  if !(pyTruthyS cfg.aadTenantId && pyTruthyS cfg.aadClientId &&
        pyTruthyS cfg.aadClientSecret) then
    ((none, some "Missing Azure AD credentials"), 0)
  else
    match idp () with
    | .hasToken t => ((some t, none), 1)
    | .errResp d =>
      ((none, some ("Token error: " ++ d.getD "Unknown error")), 1)
    | .raised m =>
      ((none, some ("Failed to get Power BI token: " ++ m)), 1)

/-! ## Query executor (`execute_dax_query`, `src/dax_agent.py` lines 181-215)

The HTTP POST is an oracle from the query text to either a raised exception
message or a `(status, parsed JSON body)` pair.  `requests.raise_for_status`
raises exactly for statuses in 400..599, with a message that starts with the
status code; the `except` clause therefore reports the status. -/

/-- Outcome of the `requests.post` call: a raised exception's message, or the
response's status code and parsed JSON body. -/
def TransportRes := Except String (Nat × Json)

/-- `str(requests.HTTPError)` for `raise_for_status` (reason/url omitted). -/
def raiseForStatusMsg (status : Nat) : String :=
  toString status ++ (if status < 500 then " Client Error" else " Server Error")

/-- `execute_dax_query` from `src/dax_agent.py`. -/
def executeDaxQuery (cfg : PbiConfig) (idp : Unit → TokenResp)
    (transport : String → TransportRes) (daxQuery : String) :
    Option Json × Option String :=
  let tok := getPowerBIAccessToken cfg idp
  let err := tok.1.2
  if pyTruthyS err then (none, err)
  else if !(pyTruthyS cfg.workspaceId && pyTruthyS cfg.datasetId) then
    (none, some "Missing POWERBI_WORKSPACE_ID or POWERBI_DATASET_ID")
  else
    match transport daxQuery with
    | .error e => (none, some ("DAX query failed: " ++ e))
    | .ok (status, body) =>
      if status = 400 then
        match pyGetD body "error" (Json.obj []) with
        | .error e => (none, some ("DAX query failed: " ++ e))
        | .ok errorDetail =>
          match pyGetD errorDetail "message" (Json.str "Invalid query") with
          | .error e => (none, some ("DAX query failed: " ++ e))
          | .ok errorMsg =>
            match pyGetD errorDetail "code" (Json.str "") with
            | .error e => (none, some ("DAX query failed: " ++ e))
            | .ok errorCode =>
              (none, some ("DAX query error (" ++ pyStrJ errorCode ++ "): " ++
                pyStrJ errorMsg))
      else if status = 401 then (none, some "401 Unauthorized")
      else if status = 403 then (none, some "403 Forbidden")
      else if status = 404 then (none, some "404 Not Found")
      else if 400 ≤ status && status < 600 then
        (none, some ("DAX query failed: " ++ raiseForStatusMsg status))
      else (some body, none)


/-! ## Schema discovery (`discover_table_columns`, `src/dax_agent.py` 111-160)

The nested `execute_dax_query` closure (token fetch + POST, returning a
`(result, error)` pair) is abstracted as the probe oracle `execQ`; its body is
the same HTTP plumbing embedded above.  The outer loop over the fixed table
list is translated literally. -/

/-- The fixed known-table list. -/
def schemaTables : List String :=
  ["flights", "airlines", "origin_airport", "destination_airport"]

/-- The probe query `f"EVALUATE TOPN(1, '{table}')"`. -/
def probeQuery (table : String) : String :=
  "EVALUATE TOPN(1, '" ++ table ++ "')"

/-- Strip the engine qualifier: `col.split('[')[1].rstrip(']')` when the name
contains both `[` and `]`, else the name unchanged. -/
def cleanCol (col : String) : String :=
  if strContains col "[" && strContains col "]" then
    pyRstrip (((pySplit col "[").drop 1).headD "") ']'
  else col

/-- The `try` block of the per-table loop: navigate
`result["results"][0]["tables"][0]["rows"]`, and if rows are present return
the cleaned keys of the first row; `Except.error` is the Python exception
caught by the bare `except`. `.ok none` means "no rows, nothing stored". -/
def extractColumns (result : Option Json) : Except String (Option (List String)) := do
  let r := result.getD Json.null
  let res ← pyGetD r "results" (Json.arr [Json.obj []])
  let first ← pyIndexJ res 0
  let tabs ← pyGetD first "tables" (Json.arr [Json.obj []])
  let tab0 ← pyIndexJ tabs 0
  let rows ← pyGetD tab0 "rows" (Json.arr [])
  if jtruthy rows then
    let row0 ← pyIndexJ rows 0
    let keys ← pyKeys row0
    pure (some (keys.map cleanCol))
  else
    pure none

/-- One iteration of the discovery loop for one table. -/
def discoverStep (execQ : String → Option Json × Option String)
    (schema : List (String × List String)) (table : String) :
    List (String × List String) :=
  let qr := execQ (probeQuery table)
  if !(pyTruthyS qr.2) && jtruthyOpt qr.1 then
    match extractColumns qr.1 with
    | .ok (some cols) => dictInsert schema table cols
    | .ok none => schema
    | .error _ => dictInsert schema table []
  else schema

/-- `discover_table_columns`. -/
def discoverTableColumns (execQ : String → Option Json × Option String) :
    List (String × List String) :=
  schemaTables.foldl (discoverStep execQ) []

/-! ## Schema cache (`get_cached_schema`, `src/dax_agent.py` 162-179)

The two module globals become an explicit state record; `time.time()` becomes
the parameter `now : ℚ`.  The returned `Bool` records whether this call
recomputed the map (i.e. ran a probe round via `discover`). -/

structure SchemaCacheState where
  cache : Option (List (String × List String))
  cacheTime : Option ℚ

/-- `get_cached_schema`, returning (schema, new state, recomputed?). -/
def getCachedSchema (st : SchemaCacheState) (now : ℚ)
    (discover : Unit → List (String × List String)) :
    List (String × List String) × SchemaCacheState × Bool :=
  match st.cache, st.cacheTime with
  | some m, some t =>
    if now - t < 3600 then (m, st, false)
    else
      let m' := discover ()
      (m', ⟨some m', some now⟩, true)
  | _, _ =>
    let m' := discover ()
    (m', ⟨some m', some now⟩, true)


/-! ## Documentation retriever (`get_relevant_dax_docs`, `src/dax_agent.py` 48-85)

`load_dax_documentation()` reads a static file; the corpus is therefore the
parameter `fullDocs`.  Each keyword group and its section marker filter is
translated literally; the unconditional "Critical Rules" append, the fallback
list, `dict.fromkeys` dedup and the `[:5]` truncation follow the source. -/

/-- The working relevance list built by the six keyword groups plus the
unconditional critical-rules append (before the empty-fallback check). -/
def daxRelevantBase (sections : List String) (query : String) : List String :=
  let ql := pyLower query
  let g1 :=
    if ["delay", "breakdown", "compare", "types", "categories"].any
        (fun w => strContains ql w) then
      sections.filter (fun s =>
        strContains s "UNION" || strContains (pyLower s) "compare multiple")
    else []
  let g2 :=
    if ["top", "highest", "lowest", "best", "worst", "most", "least"].any
        (fun w => strContains ql w) then
      sections.filter (fun s => strContains s "TOPN")
    else []
  let g3 :=
    if ["group", "by", "each", "per"].any (fun w => strContains ql w) then
      sections.filter (fun s =>
        strContains s "ADDCOLUMNS" || strContains s "Group")
    else []
  let g4 :=
    if ["count", "how many", "total number"].any (fun w => strContains ql w) then
      sections.filter (fun s =>
        strContains s "COUNTROWS" || strContains s "Count")
    else []
  let g5 :=
    if ["sum", "total", "amount"].any (fun w => strContains ql w) then
      sections.filter (fun s => strContains s "SUM")
    else []
  let g6 :=
    if ["insight", "summary", "overview", "quick"].any (fun w => strContains ql w) then
      sections.filter (fun s =>
        strContains s "Common Patterns" || strContains s "Quick Stats")
    else []
  g1 ++ g2 ++ g3 ++ g4 ++ g5 ++ g6 ++
    sections.filter (fun s => strContains s "Critical Rules")

/-- The working relevance list, with the fallback to the "always useful"
sections when no section was collected. -/
def daxRelevantList (sections : List String) (query : String) : List String :=
  if (daxRelevantBase sections query).isEmpty then
    sections.filter (fun s =>
      ["EVALUATE", "ADDCOLUMNS", "Common Patterns", "Critical Rules"].any
        (fun imp => strContains s imp))
  else daxRelevantBase sections query

/-- `list(dict.fromkeys(relevant))[:5]`. -/
def daxKeptSections (sections : List String) (query : String) : List String :=
  (pyDedup (daxRelevantList sections query)).take 5

/-- `get_relevant_dax_docs` over a given corpus text. -/
def getRelevantDaxDocs (fullDocs query : String) : String :=
  pyJoin "\n\n## " (daxKeptSections (pySplit fullDocs "\n## ") query)


/-! ## DAX filter predicates (fast-metrics calculator)

`src/powerbi.py` 358-375 builds single-value equality conditions for the
session's airline/month selections; `src/powerbi_new.py` 336-345 builds one
set-membership (`IN`) condition per filtered column.  The source emits the
conditions directly as strings; here each condition is a small AST value
together with a rendering function whose output is exactly the source's
f-string, so that the same conditions can also be evaluated against synthetic
rows. -/

/-- A scalar DAX literal as interpolated by the sources. -/
inductive DaxVal where
  | str (s : String)
  | int' (n : Int)
deriving DecidableEq

/-- `f'"{v}"' if isinstance(v, str) else str(v)`. -/
def renderDaxVal : DaxVal → String
  | .str s => "\"" ++ s ++ "\""
  | .int' n => toString n

/-- One column condition: equality (powerbi.py) or membership (powerbi_new.py). -/
inductive DaxCond where
  | eqCol (table col : String) (v : DaxVal)
  | memCol (col : String) (vs : List DaxVal)
deriving DecidableEq

/-- Renders a condition to the exact source string:
`f"'flights'[AIRLINE] = \"{airline_filter}\""`, `f"'flights'[MONTH] = {month_filter}"`,
`f"'{col}' IN {{{values_str}}}"`. -/
def renderDaxCond : DaxCond → String
  | .eqCol t c v => "'" ++ t ++ "'[" ++ c ++ "] = " ++ renderDaxVal v
  | .memCol c vs => "'" ++ c ++ "' IN \x7b" ++ pyJoin ", " (vs.map renderDaxVal) ++ "\x7d"

/-- `src/powerbi.py` 363-367: one equality condition per non-"All" selection
(the "All" sentinel is modelled as `none`); airline values are textual and
quoted, month values numeric and unquoted. -/
def autoInsightConds (airlineFilter : Option String) (monthFilter : Option Int) :
    List DaxCond :=
  (match airlineFilter with
   | some a => [DaxCond.eqCol "flights" "AIRLINE" (.str a)]
   | none => []) ++
  (match monthFilter with
   | some m => [DaxCond.eqCol "flights" "MONTH" (.int' m)]
   | none => [])

/-- `src/powerbi.py` 369-374: the filtered table expression. -/
def autoInsightFilteredTable (airlineFilter : Option String)
    (monthFilter : Option Int) : String :=
  let conds := (autoInsightConds airlineFilter monthFilter).map renderDaxCond
  if conds.isEmpty then "'flights'"
  else "FILTER('flights', " ++ pyJoin " && " conds ++ ")"

/-- The per-column filter payload parsed from the embedded report
(`{table, values, type}`; the `type` field is never read by the core). -/
structure UiFilter where
  table : String
  values : List DaxVal
deriving DecidableEq

/-- `src/powerbi_new.py` 336-343: one `IN` condition per column whose
`values` list is truthy (non-empty). -/
def newInsightConds (filters : List (String × UiFilter)) : List DaxCond :=
  filters.filterMap (fun p =>
    if p.2.values.isEmpty then none
    else some (DaxCond.memCol p.1 p.2.values))

/-- `src/powerbi_new.py` 345-354: the total-count query. -/
def newTotalQuery (filters : List (String × UiFilter)) : String :=
  let fc := (newInsightConds filters).map renderDaxCond
  if fc.isEmpty then "EVALUATE \x7bROW(\"Total\", COUNTROWS('flights'))\x7d"
  else
    "EVALUATE \x7bROW(\"Total\", COUNTROWS(FILTER('flights', " ++
      pyJoin " && " fc ++ ")))\x7d"

/-! ### Semantics of the generated predicates over synthetic rows -/

/-- A synthetic table row: column name to scalar value. -/
def DaxRow := List (String × DaxVal)

/-- The value of a column in a row. -/
def rowVal (r : DaxRow) (col : String) : Option DaxVal :=
  dictGet? r col

/-- DAX evaluation of one generated condition on one row. -/
def evalDaxCond (r : DaxRow) : DaxCond → Bool
  | .eqCol _ c v => rowVal r c == some v
  | .memCol c vs =>
    match rowVal r c with
    | some w => vs.contains w
    | none => false

/-- Rows of a synthetic table selected by a conjunction of conditions. -/
def selectRows (conds : List DaxCond) (rows : List DaxRow) : List DaxRow :=
  rows.filter (fun r => conds.all (evalDaxCond r))

/-- Written from the spec's words (the filter-semantics side of claim C7):
a row matches the airline/month context when every active single-value filter
holds as an equality on that column. -/
def specMatchAuto (airlineFilter : Option String) (monthFilter : Option Int)
    (r : DaxRow) : Bool :=
  (match airlineFilter with
   | none => true
   | some a => rowVal r "AIRLINE" == some (DaxVal.str a)) &&
  (match monthFilter with
   | none => true
   | some m => rowVal r "MONTH" == some (DaxVal.int' m))

/-- Written from the spec's words: a row matches a multi-value filter context
when, for every column with a non-empty value list, the row's value for that
column belongs to the list. -/
def specMatchMulti (filters : List (String × UiFilter)) (r : DaxRow) : Bool :=
  filters.all (fun p =>
    p.2.values.isEmpty ||
      (match rowVal r p.1 with
       | some w => p.2.values.contains w
       | none => false))

/-! ### Lexicographic string order used by the cache-key model

`json.dumps(..., sort_keys=True)` sorts keys in code-point order; `strLe`
is that order as an executable boolean on the underlying character lists. -/

/-- Code-point lexicographic `≤` on character lists. -/
def lexLeChars : List Char → List Char → Bool
  | [], _ => true
  | _ :: _, [] => false
  | a :: as, b :: bs =>
    if a.toNat = b.toNat then lexLeChars as bs else decide (a.toNat < b.toNat)

/-- Code-point lexicographic `≤` on strings. -/
def strLe (a b : String) : Bool :=
  lexLeChars a.data b.data

instance strLeDecidableRel : DecidableRel (fun a b : String => strLe a b = true) :=
  fun a b => inferInstanceAs (Decidable (strLe a b = true))

/-! ## Insights cache (`InsightsCache`, `src/powerbi.py` 40-85)

`json.dumps(context.get('filters', {}), sort_keys=True)` followed by
`hashlib.md5(...).hexdigest()` is modelled as an injective encoding of the
key-sorted filter mapping: the cache key is the association list itself,
sorted by column name (`sort_keys=True`); md5 plus JSON serialisation of a
finite string-keyed map is injective up to that key ordering.  A falsy
context (`if not context: return None`) is `none`. -/

structure CacheEntry where
  insights : String
  timestamp : ℚ
deriving DecidableEq

/-- A filter context as handed to the cache: `{'filters': {...}}`. -/
structure UiContext where
  filters : List (String × UiFilter)

/-- The `InsightsCache` object state. -/
structure InsightsCache where
  cache : List (List (String × UiFilter) × CacheEntry)
  lastTrigger : ℚ

/-- `self.debounce_seconds = 1.5`. -/
def debounceSeconds : ℚ := 3 / 2

/-- The canonical (key-sorted) form of a filter mapping, standing for
`json.dumps(filters, sort_keys=True)` + md5. -/
def canonFilters (m : List (String × UiFilter)) :
    List (String × UiFilter) :=
  (List.insertionSort (fun a b => strLe a b = true) (m.map Prod.fst)).map
    (fun k => (k, (dictGet? m k).getD ⟨"", []⟩))

/-- `get_context_hash`. -/
def getContextHash (ctx : Option UiContext) :
    Option (List (String × UiFilter)) :=
  match ctx with
  | none => none
  | some c => some (canonFilters c.filters)

/-- `store` (the two `time.time()` reads are merged into `now`). -/
def cacheStore (ic : InsightsCache) (ctx : Option UiContext) (insights : String)
    (now : ℚ) : InsightsCache :=
  match getContextHash ctx with
  | some k => { cache := dictInsert ic.cache k ⟨insights, now⟩, lastTrigger := now }
  | none => { ic with lastTrigger := now }

/-- `get_cached`. -/
def cacheGetCached (ic : InsightsCache) (ctx : Option UiContext) :
    Option CacheEntry :=
  match getContextHash ctx with
  | some k => dictGet? ic.cache k
  | none => none

/-- `should_generate`. -/
def shouldGenerate (ic : InsightsCache) (ctx : Option UiContext) (now : ℚ) : Bool :=
  if now - ic.lastTrigger < debounceSeconds then false
  else
    match getContextHash ctx with
    | none => false
    | some k => if (dictGet? ic.cache k).isSome then false else true


/-! ## Fast-metrics calculator (`get_auto_insights_from_agent`, `src/powerbi.py` 353-447)

The DAX executor, the Azure OpenAI chat call and the two session-state
selections become parameters.  The whole body sits in one `try/except` that
turns any raised exception into the string
`"Could not generate insights: " ++ str(e)`.  The f-string building
`stats_summary` applies the thousands-separator format spec `:,` to
`stats.get('total_flights', 0)` and to `stats.get('cancelled', 'N/A')`;
Python's `format` raises `ValueError("Cannot specify ',' with 's'.")` when
the value is a string, which `formatComma` models. -/

/-- Thousands grouping of the reversed digit list (`format(n, ',')`). -/
def groupRevDigits : List Char → List Char
  | d1 :: d2 :: d3 :: d4 :: rest => d1 :: d2 :: d3 :: ',' :: groupRevDigits (d4 :: rest)
  | l => l

/-- `format(n, ',')` for an integer. -/
def intComma (n : Int) : String :=
  (if n < 0 then "-" else "") ++
    String.mk ((groupRevDigits (toString n.natAbs).data.reverse).reverse)

/-- Python `format(value, ',')` on a scalar; raises `ValueError` on strings
and `TypeError` on `None` exactly as CPython does. -/
def formatComma : Json → Except String String
  | .int' n => .ok (intComma n)
  | .bool' b => .ok (if b then "1" else "0")
  | .str _ => .error "Cannot specify ',' with 's'."
  | .null => .error "unsupported format string passed to NoneType.__format__"
  | .arr _ => .error "unsupported format string passed to list.__format__"
  | .obj _ => .error "unsupported format string passed to dict.__format__"

/-- Python `round(value, 1)` on a scalar (numeric scalars are integers in
this model, so rounding returns them unchanged); raises on non-numerics. -/
def pyRound1 : Json → Except String Json
  | .int' n => .ok (.int' n)
  | .bool' b => .ok (.int' (if b then 1 else 0))
  | .str _ => .error "type str doesn't define __round__ method"
  | .null => .error "type NoneType doesn't define __round__ method"
  | .arr _ => .error "type list doesn't define __round__ method"
  | .obj _ => .error "type dict doesn't define __round__ method"

/-- The shared `try` body of each metric block: navigate
`result["results"][0]["tables"][0]["rows"]` and take `list(rows[0].values())[0]`
when rows are present (`.ok none` = empty rows, nothing stored). -/
def statFirstValue (result : Option Json) : Except String (Option Json) := do
  let r := result.getD Json.null
  let res ← pyGetD r "results" (Json.arr [Json.obj []])
  let first ← pyIndexJ res 0
  let tabs ← pyGetD first "tables" (Json.arr [Json.obj []])
  let tab0 ← pyIndexJ tabs 0
  let rows ← pyGetD tab0 "rows" (Json.arr [])
  if jtruthy rows then
    let row0 ← pyIndexJ rows 0
    let v ← pyFirstVal row0
    pure (some v)
  else
    pure none

/-- `get_auto_insights_from_agent`.  `execQ` is `dax_agent.execute_dax_query`,
`llm` the direct Azure OpenAI chat call (input: the user-message content),
`airlineFilter`/`monthFilter` the session-state selections (sentinel `"All"`). -/
def getAutoInsightsFromAgent (execQ : String → Option Json × Option String)
    (llm : String → Except String String) (airlineFilter monthFilter : String)
    (prompt : String) : String :=
  let filterConditions :=
    (if airlineFilter ≠ "All" then
      ["'flights'[AIRLINE] = \"" ++ airlineFilter ++ "\""] else []) ++
    (if monthFilter ≠ "All" then
      ["'flights'[MONTH] = " ++ monthFilter] else [])
  let filterClause := pyJoin " && " filterConditions
  let filteredTable :=
    if !filterConditions.isEmpty then
      "FILTER('flights', " ++ filterClause ++ ")"
    else "'flights'"
  let q1 := "EVALUATE ROW(\"Total\", COUNTROWS(" ++ filteredTable ++ "))"
  let r1 := execQ q1
  let stTotal : Option Json :=
    if !(pyTruthyS r1.2) && jtruthyOpt r1.1 then
      match statFirstValue r1.1 with
      | .ok (some v) => some v
      | _ => none
    else none
  let q2 :=
    if !filterConditions.isEmpty then
      "EVALUATE ROW(\"AvgDelay\", CALCULATE(AVERAGE('flights'[DEPARTURE_DELAY]), " ++
        filterClause ++ "))"
    else "EVALUATE ROW(\"AvgDelay\", AVERAGE('flights'[DEPARTURE_DELAY]))"
  let r2 := execQ q2
  let stAvg : Option Json :=
    if !(pyTruthyS r2.2) && jtruthyOpt r2.1 then
      match statFirstValue r2.1 with
      | .ok (some v) =>
        if jtruthy v then
          match pyRound1 v with
          | .ok rv => some rv
          | .error _ => none
        else some (Json.int' 0)
      | _ => none
    else none
  let q3 :=
    if !filterConditions.isEmpty then
      "EVALUATE ROW(\"Cancelled\", CALCULATE(COUNTROWS(FILTER('flights', 'flights'[CANCELLED] = 1)), " ++
        filterClause ++ "))"
    else "EVALUATE ROW(\"Cancelled\", COUNTROWS(FILTER('flights', 'flights'[CANCELLED] = 1)))"
  let r3 := execQ q3
  let stCancelled : Option Json :=
    if !(pyTruthyS r3.2) && jtruthyOpt r3.1 then
      match statFirstValue r3.1 with
      | .ok (some v) => some v
      | _ => none
    else none
  let filterDesc :=
    (if airlineFilter ≠ "All" then ["Airline: " ++ airlineFilter] else []) ++
    (if monthFilter ≠ "All" then ["Month: " ++ monthFilter] else [])
  let filterText :=
    if !filterDesc.isEmpty then pyJoin ", " filterDesc
    else "No filters (full dataset)"
  let total := stTotal.getD (Json.int' 0)
  let statsSummary : Except String String := do
    let totStr ← formatComma total
    let avgStr := pyStrJ (stAvg.getD (Json.str "N/A"))
    let cancStr ← formatComma (stCancelled.getD (Json.str "N/A"))
    pure ("Filtered Data Stats (" ++ filterText ++ "):\n- Total Flights: " ++
      totStr ++ "\n- Average Delay: " ++ avgStr ++
      " minutes\n- Cancelled Flights: " ++ cancStr)
  match statsSummary with
  | .error e => "Could not generate insights: " ++ e
  | .ok s =>
    match llm (prompt ++ "\n\n" ++ s) with
    | .error e => "Could not generate insights: " ++ e
    | .ok content => content

/-! ## Result formatting and the comparison tool (`src/dax_agent.py` 217-228, 297-345) -/

mutual

/-- A plain rendering standing for `json.dumps` (indentation omitted). -/
def jsonDumps : Json → String
  | .null => "null"
  | .bool' b => if b then "true" else "false"
  | .int' n => toString n
  | .str s => "\"" ++ s ++ "\""
  | .arr l => "[" ++ pyJoin ", " (jsonDumpsList l) ++ "]"
  | .obj l => "\x7b" ++ pyJoin ", " (jsonDumpsFields l) ++ "\x7d"

def jsonDumpsList : List Json → List String
  | [] => []
  | j :: t => jsonDumps j :: jsonDumpsList t

def jsonDumpsFields : List (String × Json) → List String
  | [] => []
  | (k, j) :: t => ("\"" ++ k ++ "\": " ++ jsonDumps j) :: jsonDumpsFields t

end

/-- `format_dax_results` (body-shape handling restricted to JSON objects,
which is what the remote envelope is). -/
def formatDaxResults (daxResponse : Option Json) : String :=
  match daxResponse with
  | some (Json.obj fields) =>
    if !jtruthy (Json.obj fields) || (dictGet? fields "results").isNone then
      "No data returned"
    else
      let results := (dictGet? fields "results").getD (Json.arr [])
      let formatted :=
        match results with
        | Json.arr rs =>
          rs.flatMap (fun result =>
            match result with
            | Json.obj rf =>
              match dictGet? rf "tables" with
              | some (Json.arr tabs) =>
                tabs.filterMap (fun table =>
                  match table with
                  | Json.obj tf =>
                    let rows := (dictGet? tf "rows").getD (Json.arr [])
                    if jtruthy rows then some (jsonDumps rows) else none
                  | _ => none)
              | _ => []
            | _ => [])
        | _ => []
      if !formatted.isEmpty then pyJoin "\n\n" formatted else "No data found"
  | _ => "No data returned"

/-- The `'airline'` branch query of `compare_tool` (whitespace as in the
triple-quoted source literal). -/
def airlineCompareQuery (topN : Int) : String :=
  "EVALUATE\n            TOPN(\n                " ++ toString topN ++
  ",\n                ADDCOLUMNS(\n                    VALUES('airlines'[AIRLINE]),\n                    \"Total Flights\", CALCULATE(COUNTROWS('flights')),\n                    \"Avg Delay\", CALCULATE(AVERAGE('flights'[DEPARTURE_DELAY]))\n                ),\n                [Total Flights], DESC\n            )"

/-- The `'origin'` branch query of `compare_tool`. -/
def originCompareQuery (topN : Int) : String :=
  "EVALUATE\n            TOPN(\n                " ++ toString topN ++
  ",\n                ADDCOLUMNS(\n                    VALUES('origin_airport'[AIRPORT]),\n                    \"Total Flights\", CALCULATE(COUNTROWS('flights'))\n                ),\n                [Total Flights], DESC\n            )"

/-- The `'month'` branch query of `compare_tool`. -/
def monthCompareQuery (topN : Int) : String :=
  "EVALUATE\n            TOPN(\n                " ++ toString topN ++
  ",\n                ADDCOLUMNS(\n                    VALUES('flights'[MONTH]),\n                    \"Total Flights\", CALCULATE(COUNTROWS('flights')),\n                    \"Cancellations\", CALCULATE(COUNTROWS(FILTER('flights', 'flights'[CANCELLED] = 1)))\n                ),\n                [Total Flights], DESC\n            )"

/-- The substring dispatch of `compare_tool` on the lowercased dimension. -/
def compareDimensionQuery (dimension : String) (topN : Int) : Option String :=
  let dl := pyLower dimension
  if strContains dl "airline" then some (airlineCompareQuery topN)
  else if strContains dl "origin" then some (originCompareQuery topN)
  else if strContains dl "month" then some (monthCompareQuery topN)
  else none

/-- `compare_tool`; the `Nat` counts remote queries issued. -/
def compareTool (execQ : String → Option Json × Option String)
    (dimension : String) (topN : Int) : String × Nat :=
  match compareDimensionQuery dimension topN with
  | none =>
    ("Unknown dimension: " ++ dimension ++
      ". Available: airline, origin, destination, month", 0)
  | some q =>
    let r := execQ q
    if pyTruthyS r.2 then ("Error: " ++ (r.2.getD ""), 1)
    else (formatDaxResults r.1, 1)

/-! ## Hardened query executor with retry (claim C1)

Modelled from the spec: no executor under `src/` implements a retry loop (the
spec states, in its §4.2 and §9, that a hardened Query Executor variant of
this repository "applies automatic retry with exponential backoff for a fixed
set of transient status codes (429, 500, 502, 503, 504), up to 3 attempts",
and that the non-transient statuses 400/401/403/404 are never retried); the
definitions below model that variant from those words.  The transport is
indexed by the attempt number; the result carries the typed outcome, the
number of POST attempts performed and the list of backoff delays slept. -/

/-- Modelled from the spec: the fixed transient status-code set. -/
def transientStatusCodes : List Nat := [429, 500, 502, 503, 504]

/-- The specification's error taxonomy (§7). -/
inductive RemoteFailure where
  | credError (msg : String)
  | queryError (code msg : String)
  | authError (kind : String)
  | notFoundError
  | remoteError (status : Nat)
  | transportError (msg : String)
deriving DecidableEq

/-- Modelled from the spec: extract `error.code` / `error.message` from a 400
response body. -/
def specErrorField (body : Json) (field dflt : String) : String :=
  match pyGetD body "error" (Json.obj []) with
  | .ok ed =>
    match pyGetD ed field (Json.str dflt) with
    | .ok v => pyStrJ v
    | .error _ => dflt
  | .error _ => dflt

/-- Modelled from the spec: the §4.2 status-code classification. -/
def classifyStatusSpec (status : Nat) (body : Json) : Except RemoteFailure Json :=
  if 200 ≤ status && status < 300 then .ok body
  else if status = 400 then
    .error (.queryError (specErrorField body "code" "")
      (specErrorField body "message" "Invalid query"))
  else if status = 401 then .error (.authError "unauthorized")
  else if status = 403 then .error (.authError "forbidden")
  else if status = 404 then .error .notFoundError
  else .error (.remoteError status)

/-- Modelled from the spec: exponential backoff delay before re-attempting. -/
def backoffDelay (attempt : Nat) : Nat := 2 ^ attempt

/-- Modelled from the spec: the retry cap ("up to 3 attempts"). -/
def hardenedMaxAttempts : Nat := 3

/-- Modelled from the spec: the retry loop.  Fuel counts remaining permitted
attempts; a transient status with fuel left sleeps the backoff delay and
re-attempts, a transient status on the final attempt surfaces `remoteError`,
everything else is classified once and returned. -/
def hardenedLoop (transport : Nat → TransportRes) (attempt : Nat) :
    Nat → Except RemoteFailure Json × Nat × List Nat
  | 0 => (.error (.remoteError 0), attempt, [])
  | fuel + 1 =>
    match transport attempt with
    | .error e => (.error (.transportError e), attempt + 1, [])
    | .ok (status, body) =>
      if status ∈ transientStatusCodes then
        if fuel = 0 then (.error (.remoteError status), attempt + 1, [])
        else
          let res := hardenedLoop transport (attempt + 1) fuel
          (res.1, res.2.1, backoffDelay attempt :: res.2.2)
      else (classifyStatusSpec status body, attempt + 1, [])

/-- Modelled from the spec: the hardened `execute_query` variant.  A token is
obtained via the credential provider first; its failure is propagated with no
POST attempt. -/
def executeDaxQueryHardened (cfg : PbiConfig) (idp : Unit → TokenResp)
    (transport : String → Nat → TransportRes) (daxQuery : String) :
    Except RemoteFailure Json × Nat × List Nat :=
  let tok := getPowerBIAccessToken cfg idp
  if pyTruthyS tok.1.2 then
    (.error (.credError (tok.1.2.getD "")), 0, [])
  else hardenedLoop (transport daxQuery) 0 hardenedMaxAttempts

/-! ## Concrete fixtures used by counterexamples and witnesses -/

/-- A fully-populated configuration. -/
def cfgAllSet : PbiConfig :=
  ⟨some "tenant", some "client", some "secret", some "ws", some "ds"⟩

/-- A configuration whose client secret is absent. -/
def cfgNoSecret : PbiConfig :=
  ⟨some "tenant", some "client", none, some "ws", some "ds"⟩

/-- An identity provider that always issues a token. -/
def idpOk : Unit → TokenResp := fun _ => .hasToken "tok"

/-- A success envelope with a single row with the given fields. -/
def rowEnvelope (fields : List (String × Json)) : Json :=
  Json.obj
    [("results",
      Json.arr
        [Json.obj
          [("tables",
            Json.arr
              [Json.obj
                [("rows", Json.arr [Json.obj fields])]])]])]


/-- A probe oracle that fails for the `airlines` probe and returns a one-row
envelope (with an engine-qualified column name) for every other probe. -/
def c2FailAirlinesOracle : String → Option Json × Option String := fun q =>
  if q = probeQuery "airlines" then (none, some "Error 503")
  else (some (rowEnvelope [("flights[AIRLINE]", Json.str "AA")]), none)

/-- A corpus with five distinct `TOPN` sections followed by the critical-rules
section. -/
def c4TruncDocs : String :=
  "TOPN a\n## TOPN b\n## TOPN c\n## TOPN d\n## TOPN e\n## Critical Rules"

/-- A DAX oracle for which exactly the cancelled-count query fails. -/
def c5Oracle : String → Option Json × Option String := fun q =>
  if q = "EVALUATE ROW(\"Cancelled\", COUNTROWS(FILTER('flights', 'flights'[CANCELLED] = 1)))" then
    (none, some "DAX query failed: 503 Server Error")
  else (some (rowEnvelope [("[Total]", Json.int' 2500)]), none)

/-- A DAX oracle for which every query succeeds with one row of value 2500. -/
def c5AllOkOracle : String → Option Json × Option String := fun _ =>
  (some (rowEnvelope [("[Total]", Json.int' 2500)]), none)

/-- A deterministic LLM stub echoing its user message. -/
def c5Llm : String → Except String String := fun s => .ok ("insight: " ++ s)

/-- A schema-cache state built at time 0. -/
def schemaStateAt0 : SchemaCacheState := ⟨some [("flights", ["AIRLINE"])], some 0⟩

/-- A two-column filter mapping. -/
def fmA : List (String × UiFilter) :=
  [("AIRLINE", ⟨"flights", [DaxVal.str "AA"]⟩), ("MONTH", ⟨"flights", [DaxVal.int' 3]⟩)]

/-- The same mapping with its keys serialised in the opposite order. -/
def fmB : List (String × UiFilter) :=
  [("MONTH", ⟨"flights", [DaxVal.int' 3]⟩), ("AIRLINE", ⟨"flights", [DaxVal.str "AA"]⟩)]

/-! ## DEFINITIONS END / THEOREMS BEGIN -/

/-! ## Helper lemmas about Python dicts -/

theorem dictGet?_dictInsert_self [DecidableEq κ] (l : List (κ × β)) (k : κ) (v : β) :
    dictGet? (dictInsert l k v) k = some v := by
  induction l with
  | nil => simp [dictInsert, dictGet?]
  | cons p rest ih =>
    obtain ⟨k', v'⟩ := p
    by_cases h : k' = k
    · simp [dictInsert, dictGet?, h]
    · simp [dictInsert, dictGet?, h, ih]

theorem dictGet?_dictInsert_ne [DecidableEq κ] (l : List (κ × β)) (k k' : κ) (v : β)
    (h : k ≠ k') : dictGet? (dictInsert l k v) k' = dictGet? l k' := by
  induction l with
  | nil => simp [dictInsert, dictGet?, h]
  | cons p rest ih =>
    obtain ⟨k₀, v₀⟩ := p
    by_cases hk : k₀ = k
    · subst hk
      simp [dictInsert, dictGet?, h]
    · simp [dictInsert, dictGet?, hk, ih]

theorem dictGet?_isSome_iff_mem [DecidableEq κ] (l : List (κ × β)) (k : κ) :
    (dictGet? l k).isSome = true ↔ k ∈ l.map Prod.fst := by
  induction l with
  | nil => simp [dictGet?]
  | cons p rest ih =>
    obtain ⟨k₀, v₀⟩ := p
    by_cases hk : k₀ = k
    · subst hk; simp [dictGet?]
    · simp [dictGet?, hk, ih, Ne.symm hk]

/-! ## Substring lemmas used for the documentation retriever -/

theorem startsWithL_append (n l₁ l₂ : List Char) (h : startsWithL n l₁ = true) :
    startsWithL n (l₁ ++ l₂) = true := by
  induction n generalizing l₁ with
  | nil => simp [startsWithL]
  | cons a as ih =>
    cases l₁ with
    | nil => simp [startsWithL] at h
    | cons b bs =>
      simp only [startsWithL, Bool.and_eq_true] at h ⊢
      exact ⟨h.1, ih bs h.2⟩

theorem containsL_append_left (l₁ l₂ n : List Char) (h : containsL l₁ n = true) :
    containsL (l₁ ++ l₂) n = true := by
  induction l₁ with
  | nil =>
    simp only [containsL] at h
    cases n with
    | nil =>
      cases l₂ with
      | nil => simp [containsL, startsWithL]
      | cons c cs => simp [containsL, startsWithL]
    | cons a as => simp [startsWithL] at h
  | cons b bs ih =>
    simp only [containsL, Bool.or_eq_true] at h
    rw [List.cons_append]
    simp only [containsL, Bool.or_eq_true]
    rcases h with h | h
    · exact Or.inl (by simpa using startsWithL_append n (b :: bs) l₂ h)
    · exact Or.inr (ih h)

theorem containsL_append_right (l₁ l₂ n : List Char) (h : containsL l₂ n = true) :
    containsL (l₁ ++ l₂) n = true := by
  induction l₁ with
  | nil => simpa using h
  | cons b bs ih =>
    rw [List.cons_append, containsL]
    simp only [Bool.or_eq_true]
    exact Or.inr ih

theorem strContains_append_left (a b m : String) (h : strContains a m = true) :
    strContains (a ++ b) m = true := by
  unfold strContains at h ⊢
  rw [String.data_append]
  exact containsL_append_left _ _ _ h

theorem strContains_append_right (a b m : String) (h : strContains b m = true) :
    strContains (a ++ b) m = true := by
  unfold strContains at h ⊢
  rw [String.data_append]
  exact containsL_append_right _ _ _ h

/-- A section kept in the joined excerpt keeps its substrings visible. -/
theorem strContains_pyJoin (sep m : String) (l : List String) (s : String)
    (hs : s ∈ l) (hm : strContains s m = true) :
    strContains (pyJoin sep l) m = true := by
  induction l with
  | nil => cases hs
  | cons x xs ih =>
    cases xs with
    | nil =>
      rcases List.mem_singleton.mp hs with rfl
      simpa [pyJoin] using hm
    | cons y ys =>
      rw [pyJoin]
      rcases List.mem_cons.mp hs with rfl | hs'
      · exact strContains_append_left _ _ _ (strContains_append_left _ _ _ hm)
      · exact strContains_append_right _ _ _ (ih hs')

/-! ## Claim C9: missing credentials fail fast with no network call -/

/-- C9: if any of tenant id, client id or client secret is missing from the
configuration (unset, or empty — Python truthiness), `get_powerbi_access_token`
returns no token together with the configuration-error message immediately,
performing zero identity-provider network calls. -/
theorem c9_missing_credentials_no_network (cfg : PbiConfig) (idp : Unit → TokenResp)
    (h : pyTruthyS cfg.aadTenantId = false ∨ pyTruthyS cfg.aadClientId = false ∨
      pyTruthyS cfg.aadClientSecret = false) :
    getPowerBIAccessToken cfg idp = ((none, some "Missing Azure AD credentials"), 0) := by
  unfold getPowerBIAccessToken
  rcases h with h | h | h <;> simp [h]

/-- Witness for C9: with the client secret unset, the provider reports the
configuration error with zero identity-provider calls. -/
theorem c9_missing_credentials_no_network_witness :
    getPowerBIAccessToken cfgNoSecret idpOk =
      ((none, some "Missing Azure AD credentials"), 0) :=
  c9_missing_credentials_no_network cfgNoSecret idpOk (Or.inr (Or.inr (by decide)))

/-! ## Claim C10: the comparison tool rejects 'destination' -/

/-- C10: for every dimension string whose lowercased form contains none of the
substrings `airline`, `origin`, `month`, `compare_tool` issues no remote query
and returns the "Unknown dimension" message, whose "Available" list names
`destination` — even though `destination` itself (which contains none of the
three substrings, `origin` not being a substring of `destination`) is rejected
by this very dispatch. -/
theorem c10_unknown_dimension (execQ : String → Option Json × Option String)
    (dimension : String) (topN : Int)
    (h1 : strContains (pyLower dimension) "airline" = false)
    (h2 : strContains (pyLower dimension) "origin" = false)
    (h3 : strContains (pyLower dimension) "month" = false) :
    compareTool execQ dimension topN =
      ("Unknown dimension: " ++ dimension ++
        ". Available: airline, origin, destination, month", 0) ∧
    strContains ("Unknown dimension: " ++ dimension ++
        ". Available: airline, origin, destination, month") "destination" = true := by
  constructor
  · unfold compareTool compareDimensionQuery
    simp [h1, h2, h3]
  · exact strContains_append_right _ _ _ (by decide)

/-- Witness for C10: the advertised dimension `destination` itself is
rejected with the "Unknown dimension" message and zero remote queries. -/
theorem c10_unknown_dimension_witness :
    compareTool (fun _ => (none, none)) "destination" 5 =
      ("Unknown dimension: destination. Available: airline, origin, destination, month", 0) :=
  (c10_unknown_dimension (fun _ => (none, none)) "destination" 5
    (by decide) (by decide) (by decide)).1

theorem pyTruthyS_none : pyTruthyS (none : Option String) = false := rfl

/-! ## Claim C3: status classification of the query executor -/

/-- C3 (amended): with valid credentials and dataset ids, `execute_dax_query`
classifies the transport outcome as: 400 → query-error message embedding the
engine's error code and message from the response body; 401 → "401
Unauthorized"; 403 → "403 Forbidden"; 404 → "404 Not Found"; any *other
status in 400..599* → a generic failure message carrying the status code
(via `raise_for_status`); a raised network/timeout exception → a failure
message with the underlying text; 200 → the parsed JSON envelope unmodified
with no error.  Amendment forced by the counterexample below: statuses below
400 that are not 2xx (1xx/3xx) are *also* returned as success, not as a
generic remote error — `raise_for_status` only raises for 400..599. -/
theorem c3_executor_classification (cfg : PbiConfig) (idp : Unit → TokenResp)
    (transport : String → TransportRes) (q : String)
    (hTok : (getPowerBIAccessToken cfg idp).1.2 = none)
    (hW : pyTruthyS cfg.workspaceId = true) (hD : pyTruthyS cfg.datasetId = true) :
    (∀ body, transport q = .ok (200, body) →
      executeDaxQuery cfg idp transport q = (some body, none)) ∧
    (∀ ec em, transport q = .ok (400,
        Json.obj [("error", Json.obj [("code", Json.str ec), ("message", Json.str em)])]) →
      executeDaxQuery cfg idp transport q =
        (none, some ("DAX query error (" ++ ec ++ "): " ++ em))) ∧
    (∀ body, transport q = .ok (401, body) →
      executeDaxQuery cfg idp transport q = (none, some "401 Unauthorized")) ∧
    (∀ body, transport q = .ok (403, body) →
      executeDaxQuery cfg idp transport q = (none, some "403 Forbidden")) ∧
    (∀ body, transport q = .ok (404, body) →
      executeDaxQuery cfg idp transport q = (none, some "404 Not Found")) ∧
    (∀ s body, 400 ≤ s → s < 600 → s ≠ 400 → s ≠ 401 → s ≠ 403 → s ≠ 404 →
      transport q = .ok (s, body) →
      executeDaxQuery cfg idp transport q =
        (none, some ("DAX query failed: " ++ raiseForStatusMsg s))) ∧
    (∀ e, transport q = .error e →
      executeDaxQuery cfg idp transport q = (none, some ("DAX query failed: " ++ e))) ∧
    (∀ s body, s < 400 → transport q = .ok (s, body) →
      executeDaxQuery cfg idp transport q = (some body, none)) := by
  refine ⟨?_, ?_, ?_, ?_, ?_, ?_, ?_, ?_⟩
  · intro body htr
    simp [executeDaxQuery, hTok, hW, hD, htr, pyTruthyS_none]
  · intro ec em htr
    simp [executeDaxQuery, hTok, hW, hD, htr, pyTruthyS_none, pyGetD, dictGet?, pyStrJ]
  · intro body htr
    simp [executeDaxQuery, hTok, hW, hD, htr, pyTruthyS_none]
  · intro body htr
    simp [executeDaxQuery, hTok, hW, hD, htr, pyTruthyS_none]
  · intro body htr
    simp [executeDaxQuery, hTok, hW, hD, htr, pyTruthyS_none]
  · intro s body hle hlt h400 h401 h403 h404 htr
    simp [executeDaxQuery, hTok, hW, hD, htr, pyTruthyS_none, h400, h401, h403, h404, hle, hlt]
  · intro e htr
    simp [executeDaxQuery, hTok, hW, hD, htr, pyTruthyS_none]
  · intro s body hlt htr
    have h400 : s ≠ 400 := by omega
    have h401 : s ≠ 401 := by omega
    have h403 : s ≠ 403 := by omega
    have h404 : s ≠ 404 := by omega
    have hnle : ¬ 400 ≤ s := by omega
    simp [executeDaxQuery, hTok, hW, hD, htr, pyTruthyS_none, h400, h401, h403, h404, hnle]

/-- Counterexample for C3: a stub transport answering with status 300 (a
non-2xx status outside the four classified codes) makes `execute_dax_query`
return the parsed body as a *success* with no error, where the claim requires
a generic `RemoteError` carrying the status code for every non-2xx status. -/
theorem c3_counterexample_status300 :
    executeDaxQuery cfgAllSet idpOk
        (fun _ => .ok (300, rowEnvelope [("x", Json.int' 1)])) "EVALUATE X" =
      (some (rowEnvelope [("x", Json.int' 1)]), none) ∧
    ¬ (200 ≤ 300 ∧ 300 < 300) :=
  ⟨rfl, by omega⟩

/-- Witness for C3: the 401 branch at a concrete stub transport. -/
theorem c3_executor_classification_witness :
    executeDaxQuery cfgAllSet idpOk (fun _ => .ok (401, Json.null)) "EVALUATE X" =
      (none, some "401 Unauthorized") :=
  (c3_executor_classification cfgAllSet idpOk (fun _ => .ok (401, Json.null))
    "EVALUATE X" rfl (by decide) (by decide)).2.2.1 Json.null rfl

/-! ## Claim C6: schema cache refresh policy -/

/-- C6 (amended): `get_cached_schema` recomputes the schema map exactly when
no map (or no build time) exists yet, or when *at least* 3600 seconds have
elapsed since the last build — the boundary case of exactly 3600 elapsed
seconds also recomputes, which is what the counterexample below forces the
claim's "more than 3600 seconds" to be amended to.  Otherwise the cached map
is returned unchanged with no probe round, so two calls within the refresh
interval perform exactly one probe round in total. -/
theorem c6_schema_cache_policy (st : SchemaCacheState) (now : ℚ)
    (d : Unit → List (String × List String)) :
    (∀ m t, st = ⟨some m, some t⟩ → now - t < 3600 →
      getCachedSchema st now d = (m, st, false)) ∧
    (∀ m t, st = ⟨some m, some t⟩ → 3600 ≤ now - t →
      getCachedSchema st now d = (d (), ⟨some (d ()), some now⟩, true)) ∧
    (st.cache = none →
      getCachedSchema st now d = (d (), ⟨some (d ()), some now⟩, true)) ∧
    (st.cacheTime = none →
      getCachedSchema st now d = (d (), ⟨some (d ()), some now⟩, true)) ∧
    (∀ t0 t1 : ℚ, t1 - t0 < 3600 →
      getCachedSchema ⟨none, none⟩ t0 d = (d (), ⟨some (d ()), some t0⟩, true) ∧
      getCachedSchema ⟨some (d ()), some t0⟩ t1 d = (d (), ⟨some (d ()), some t0⟩, false)) := by
  refine ⟨?_, ?_, ?_, ?_, ?_⟩
  · rintro m t rfl h
    simp [getCachedSchema, h]
  · rintro m t rfl h
    have h' : ¬ (now - t < 3600) := not_lt.mpr h
    simp [getCachedSchema, h']
  · intro h
    obtain ⟨c, ct⟩ := st
    cases c with
    | none => cases ct <;> simp [getCachedSchema]
    | some m => simp at h
  · intro h
    obtain ⟨c, ct⟩ := st
    cases ct with
    | none => cases c <;> simp [getCachedSchema]
    | some t => simp at h
  · intro t0 t1 h
    exact ⟨by simp [getCachedSchema], by simp [getCachedSchema, h]⟩

/-- Counterexample for C6: with a map built at time 0 and a call at time
exactly 3600, *not* more than 3600 seconds have elapsed, and a map exists —
yet `get_cached_schema` recomputes (performs a probe round). -/
theorem c6_counterexample_boundary :
    (getCachedSchema schemaStateAt0 3600 (fun _ => [])).2.2 = true ∧
    schemaStateAt0.cache ≠ none ∧ ¬ ((3600 : ℚ) - 0 > 3600) := by
  refine ⟨?_, by simp [schemaStateAt0], by norm_num⟩
  simp only [schemaStateAt0, getCachedSchema]
  norm_num

/-- Witness for C6: a second call 100 seconds after a build returns the
cached map unchanged with no probe round. -/
theorem c6_schema_cache_policy_witness :
    getCachedSchema schemaStateAt0 100 (fun _ => []) =
      ([("flights", ["AIRLINE"])], schemaStateAt0, false) :=
  (c6_schema_cache_policy schemaStateAt0 100 (fun _ => [])).1
    [("flights", ["AIRLINE"])] 0 rfl (by norm_num)

/-! ## Claim C2: per-table degradation of schema discovery -/

theorem discoverStep_lookup_ne (execQ : String → Option Json × Option String)
    (sch : List (String × List String)) (x t : String) (h : x ≠ t) :
    dictGet? (discoverStep execQ sch x) t = dictGet? sch t := by
  simp only [discoverStep]
  split
  · split
    · exact dictGet?_dictInsert_ne _ _ _ _ h
    · rfl
    · exact dictGet?_dictInsert_ne _ _ _ _ h
  · rfl

theorem foldl_discoverStep_lookup_not_mem (execQ : String → Option Json × Option String)
    (l : List String) (sch : List (String × List String)) (t : String)
    (h : t ∉ l) :
    dictGet? (l.foldl (discoverStep execQ) sch) t = dictGet? sch t := by
  induction l generalizing sch with
  | nil => rfl
  | cons x xs ih =>
    rw [List.foldl_cons]
    rw [ih _ (fun hx => h (List.mem_cons_of_mem _ hx))]
    exact discoverStep_lookup_ne execQ sch x t (fun hxt => h (hxt ▸ List.mem_cons_self x xs))

theorem discoverStep_lookup_self (execQ : String → Option Json × Option String)
    (sch : List (String × List String)) (t : String)
    (h : dictGet? sch t = none) :
    dictGet? (discoverStep execQ sch t) t = dictGet? (discoverStep execQ [] t) t := by
  simp only [discoverStep]
  split
  · split
    · rw [dictGet?_dictInsert_self, dictGet?_dictInsert_self]
    · rw [h]; rfl
    · rw [dictGet?_dictInsert_self, dictGet?_dictInsert_self]
  · rw [h]; rfl

theorem foldl_discoverStep_lookup (execQ : String → Option Json × Option String)
    (l : List String) (sch : List (String × List String)) (t : String)
    (hmem : t ∈ l) (hnd : l.Nodup) (h : dictGet? sch t = none) :
    dictGet? (l.foldl (discoverStep execQ) sch) t =
      dictGet? (discoverStep execQ [] t) t := by
  induction l generalizing sch with
  | nil => cases hmem
  | cons x xs ih =>
    rw [List.foldl_cons]
    rcases List.mem_cons.mp hmem with rfl | hmem'
    · have hnx : t ∉ xs := (List.nodup_cons.mp hnd).1
      rw [foldl_discoverStep_lookup_not_mem execQ xs _ t hnx]
      exact discoverStep_lookup_self execQ sch t h
    · have hx : x ≠ t := by
        rintro rfl
        exact (List.nodup_cons.mp hnd).1 hmem'
      exact ih (discoverStep execQ sch x) hmem' (List.nodup_cons.mp hnd).2
        (by rw [discoverStep_lookup_ne execQ sch x t hx]; exact h)

/-- C2 (amended): every table's entry in the discovered schema map is exactly
what processing that table alone produces — a failure for one table never
aborts or perturbs the remaining tables, and discovery never raises — but a
table whose probe *fails* (truthy error) is *absent* from the map rather than
mapped to the empty column list (the claim's invariant is amended
accordingly; an empty list is stored only when the probe succeeds and the
row-extraction itself raises). -/
theorem c2_schema_discovery_degradation (execQ : String → Option Json × Option String) :
    (∀ t ∈ schemaTables,
      dictGet? (discoverTableColumns execQ) t = dictGet? (discoverStep execQ [] t) t) ∧
    (∀ t ∈ schemaTables, ∀ e, execQ (probeQuery t) = (none, some e) → e ≠ "" →
      dictGet? (discoverTableColumns execQ) t = none) := by
  have hnd : schemaTables.Nodup := by decide
  constructor
  · intro t ht
    exact foldl_discoverStep_lookup execQ schemaTables [] t ht hnd rfl
  · intro t ht e he hne
    unfold discoverTableColumns
    rw [foldl_discoverStep_lookup execQ schemaTables [] t ht hnd rfl]
    simp only [discoverStep, he]
    simp [pyTruthyS, hne, jtruthyOpt, dictGet?]

/-- Counterexample for C2: with a probe oracle failing exactly for
`airlines`, the discovered map has *no* `airlines` key at all (the claim says
every table of the static list is a key, with `[]` on failure) — while the
other three tables are still probed and stored (no early abort). -/
theorem c2_counterexample_absent_key :
    dictGet? (discoverTableColumns c2FailAirlinesOracle) "airlines" = none ∧
    "airlines" ∈ schemaTables ∧
    discoverTableColumns c2FailAirlinesOracle =
      [("flights", ["AIRLINE"]), ("origin_airport", ["AIRLINE"]),
        ("destination_airport", ["AIRLINE"])] := by
  refine ⟨by decide, by decide, by decide⟩

/-- Witness for C2: the amended theorem applied to the concrete failing
oracle shows the `airlines` entry absent. -/
theorem c2_schema_discovery_degradation_witness :
    dictGet? (discoverTableColumns c2FailAirlinesOracle) "airlines" = none :=
  (c2_schema_discovery_degradation c2FailAirlinesOracle).2 "airlines"
    (by decide) "Error 503" rfl (by decide)

/-! ## Claim C4: critical-rules sections in retrieved documentation -/

/-- C4 (amended): every section containing the "Critical Rules" marker is
appended to the working relevance list unconditionally, and whenever such a
section survives into the kept list (the first 5 unique sections), the
returned excerpt contains the marker.  The unconditional appending does *not*
guarantee the marker is in every non-empty excerpt: the `[:5]` truncation can
drop it when five distinct keyword-matched sections precede it (the
counterexample below). -/
theorem c4_critical_rules_retrieval (fullDocs query : String) :
    (∀ s ∈ pySplit fullDocs "\n## ", strContains s "Critical Rules" = true →
      s ∈ daxRelevantList (pySplit fullDocs "\n## ") query) ∧
    (∀ s ∈ daxKeptSections (pySplit fullDocs "\n## ") query,
      strContains s "Critical Rules" = true →
      strContains (getRelevantDaxDocs fullDocs query) "Critical Rules" = true) := by
  constructor
  · intro s hs hm
    have hfilter : s ∈ (pySplit fullDocs "\n## ").filter
        (fun s => strContains s "Critical Rules") :=
      List.mem_filter.mpr ⟨hs, hm⟩
    have hbase : s ∈ daxRelevantBase (pySplit fullDocs "\n## ") query := by
      simp only [daxRelevantBase]
      exact List.mem_append_right _ hfilter
    have hne : ¬ ((daxRelevantBase (pySplit fullDocs "\n## ") query).isEmpty = true) := by
      intro hemp
      rw [List.isEmpty_iff] at hemp
      rw [hemp] at hbase
      cases hbase
    unfold daxRelevantList
    rw [if_neg hne]
    exact hbase
  · intro s hs hm
    unfold getRelevantDaxDocs
    exact strContains_pyJoin _ _ _ s hs hm

/-- Counterexample for C4: five distinct `TOPN` sections match the ranking
keyword group of the query "top", the critical-rules section is appended
sixth, and the `[:5]` truncation drops it — the returned excerpt is non-empty
and contains no "Critical Rules" marker. -/
theorem c4_counterexample_truncated_rules :
    getRelevantDaxDocs c4TruncDocs "top" =
      "TOPN a\n\n## TOPN b\n\n## TOPN c\n\n## TOPN d\n\n## TOPN e" ∧
    strContains (getRelevantDaxDocs c4TruncDocs "top") "Critical Rules" = false ∧
    getRelevantDaxDocs c4TruncDocs "top" ≠ "" := by
  refine ⟨by decide, by decide, by decide⟩

/-- Witness for C4: on a two-section corpus whose query matches no keyword
group, the critical-rules section is in the relevance list and the marker is
in the returned excerpt. -/
theorem c4_critical_rules_retrieval_witness :
    "Critical Rules: always" ∈
      daxRelevantList (pySplit "Intro\n## Critical Rules: always" "\n## ") "zzz" ∧
    strContains (getRelevantDaxDocs "Intro\n## Critical Rules: always" "zzz")
      "Critical Rules" = true :=
  ⟨(c4_critical_rules_retrieval "Intro\n## Critical Rules: always" "zzz").1
      "Critical Rules: always" (by decide) (by decide),
   (c4_critical_rules_retrieval "Intro\n## Critical Rules: always" "zzz").2
      "Critical Rules: always" (by decide) (by decide)⟩

/-! ## Claim C5: per-metric degradation of the fast-metrics batch -/

/-- C5 (code bug): when exactly the cancelled-count query fails, the metric is
left absent and its `'N/A'` default is then formatted with the thousands
separator `:,` inside the stats-summary f-string; Python raises
`ValueError("Cannot specify ',' with 's'.")`, the outer handler catches it,
and the whole batch aborts into "Could not generate insights: ..." — no stats
summary and no LLM insight are produced, although the other metrics were
computed.  (Contrast: with all three queries succeeding the function returns
the LLM insight over the full summary.)  The claim — and the code's own
`'N/A'` defaulting — intend per-metric degradation; the format spec on the
default makes a single per-query failure abort the batch. -/
theorem c5_cancelled_failure_aborts_batch :
    getAutoInsightsFromAgent c5Oracle c5Llm "All" "All" "Analyze" =
      "Could not generate insights: Cannot specify ',' with 's'." ∧
    c5Oracle "EVALUATE ROW(\"Total\", COUNTROWS('flights'))" =
      (some (rowEnvelope [("[Total]", Json.int' 2500)]), none) ∧
    getAutoInsightsFromAgent c5AllOkOracle c5Llm "All" "All" "Analyze" =
      "insight: Analyze\n\nFiltered Data Stats (No filters (full dataset)):\n- Total Flights: 2,500\n- Average Delay: 2500 minutes\n- Cancelled Flights: 2,500" := by
  refine ⟨by decide, rfl, by decide⟩

/-! ## Claim C7: generated filter predicates select exactly the matching rows -/

theorem autoConds_all_eval (a : Option String) (m : Option Int) (r : DaxRow) :
    (autoInsightConds a m).all (evalDaxCond r) = specMatchAuto a m r := by
  cases a <;> cases m <;>
    simp [autoInsightConds, specMatchAuto, evalDaxCond]

theorem multiConds_all_eval (fs : List (String × UiFilter)) (r : DaxRow) :
    (newInsightConds fs).all (evalDaxCond r) = specMatchMulti fs r := by
  induction fs with
  | nil => simp [newInsightConds, specMatchMulti]
  | cons p t ih =>
    by_cases hv : p.2.values = []
    · have h1 : newInsightConds (p :: t) = newInsightConds t := by
        simp [newInsightConds, List.filterMap_cons, hv]
      have h2 : specMatchMulti (p :: t) r = specMatchMulti t r := by
        simp [specMatchMulti, hv]
      rw [h1, h2, ih]
    · have h1 : newInsightConds (p :: t) =
          DaxCond.memCol p.1 p.2.values :: newInsightConds t := by
        simp [newInsightConds, List.filterMap_cons, hv]
      have h2 : specMatchMulti (p :: t) r =
          (evalDaxCond r (DaxCond.memCol p.1 p.2.values) && specMatchMulti t r) := by
        have he : p.2.values.isEmpty = false := by
          simpa [List.isEmpty_iff] using hv
        simp [specMatchMulti, evalDaxCond, he]
      rw [h1, List.all_cons, h2, ih]

/-- C7: the generated predicate translates a single textual value to a quoted
equality comparison, a single numeric value to an unquoted equality
comparison, several column filters to an `&&` conjunction, a multi-value
filter to a set-membership (`IN`) list quoting exactly its textual members,
and no filters to the unrestricted `'flights'` table; and on every synthetic
row set, the rows selected by the generated conjunction are exactly the rows
matching the filter semantics. -/
theorem c7_filter_predicate_generation :
    (autoInsightFilteredTable none none = "'flights'") ∧
    (newTotalQuery [] = "EVALUATE \x7bROW(\"Total\", COUNTROWS('flights'))\x7d") ∧
    (∀ a : String, autoInsightFilteredTable (some a) none =
      "FILTER('flights', 'flights'[AIRLINE] = \"" ++ a ++ "\")") ∧
    (∀ m : Int, autoInsightFilteredTable none (some m) =
      "FILTER('flights', 'flights'[MONTH] = " ++ toString m ++ ")") ∧
    (∀ (a : String) (m : Int), autoInsightFilteredTable (some a) (some m) =
      "FILTER('flights', 'flights'[AIRLINE] = \"" ++ a ++
        "\" && 'flights'[MONTH] = " ++ toString m ++ ")") ∧
    (∀ (col s : String) (n : Int),
      renderDaxCond (DaxCond.memCol col [DaxVal.str s, DaxVal.int' n]) =
        "'" ++ col ++ "' IN \x7b\"" ++ s ++ "\", " ++ toString n ++ "\x7d") ∧
    (∀ a m rows, selectRows (autoInsightConds a m) rows =
      rows.filter (specMatchAuto a m)) ∧
    (∀ fs rows, selectRows (newInsightConds fs) rows =
      rows.filter (specMatchMulti fs)) := by
  refine ⟨rfl, rfl, ?_, ?_, ?_, ?_, ?_, ?_⟩
  · intro a
    apply String.ext
    simp [autoInsightFilteredTable, autoInsightConds, renderDaxCond, renderDaxVal,
      pyJoin, String.data_append]
  · intro m
    apply String.ext
    simp [autoInsightFilteredTable, autoInsightConds, renderDaxCond, renderDaxVal,
      pyJoin, String.data_append]
  · intro a m
    apply String.ext
    simp [autoInsightFilteredTable, autoInsightConds, renderDaxCond, renderDaxVal,
      pyJoin, String.data_append]
  · intro col s n
    apply String.ext
    simp [renderDaxCond, renderDaxVal, pyJoin, String.data_append]
  · intro a m rows
    unfold selectRows
    congr 1
    funext r
    exact autoConds_all_eval a m r
  · intro fs rows
    unfold selectRows
    congr 1
    funext r
    exact multiConds_all_eval fs r

/-! ## Claim C8: insights cache round-trip and key normalisation -/

theorem dictGet?_mapKeys [DecidableEq κ] (ks : List κ) (f : κ → β) (k : κ) :
    dictGet? (ks.map (fun x => (x, f x))) k =
      if k ∈ ks then some (f k) else none := by
  induction ks with
  | nil => simp [dictGet?]
  | cons x t ih =>
    by_cases h : x = k
    · subst h
      simp [dictGet?]
    · simp [dictGet?, h, ih, Ne.symm h]

theorem dictGet?_canonFilters (m : List (String × UiFilter)) (k : String) :
    dictGet? (canonFilters m) k = dictGet? m k := by
  unfold canonFilters
  rw [dictGet?_mapKeys]
  by_cases hk : k ∈ List.insertionSort (fun a b => strLe a b = true) (m.map Prod.fst)
  · have hk' : k ∈ m.map Prod.fst := (List.perm_insertionSort _ _).mem_iff.mp hk
    obtain ⟨v, hv⟩ := Option.isSome_iff_exists.mp ((dictGet?_isSome_iff_mem m k).mpr hk')
    rw [if_pos hk, hv]
    rfl
  · have hk' : k ∉ m.map Prod.fst := fun h =>
      hk ((List.perm_insertionSort _ _).mem_iff.mpr h)
    have hnone : dictGet? m k = none := by
      rcases h : dictGet? m k with _ | v
      · rfl
      · exact absurd ((dictGet?_isSome_iff_mem m k).mp (by simp [h])) hk'
    rw [if_neg hk, hnone]

theorem uint32_toNat_inj {a b : UInt32} (h : a.toNat = b.toNat) : a = b := by
  cases a with
  | mk av =>
    cases b with
    | mk bv =>
      congr 1
      exact BitVec.eq_of_toNat_eq h

theorem char_toNat_inj {a b : Char} (h : a.toNat = b.toNat) : a = b :=
  Char.ext (uint32_toNat_inj h)

theorem lexLeChars_cons_cons (x y : Char) (xs ys : List Char) :
    lexLeChars (x :: xs) (y :: ys) =
      (if x.toNat = y.toNat then lexLeChars xs ys
       else decide (x.toNat < y.toNat)) := rfl

theorem lexLeChars_total : ∀ a b : List Char,
    lexLeChars a b = true ∨ lexLeChars b a = true := by
  intro a
  induction a with
  | nil => intro b; exact Or.inl rfl
  | cons x xs ih =>
    intro b
    cases b with
    | nil => exact Or.inr rfl
    | cons y ys =>
      rw [lexLeChars_cons_cons, lexLeChars_cons_cons]
      by_cases hxy : x.toNat = y.toNat
      · rw [if_pos hxy, if_pos hxy.symm]
        exact ih ys
      · have hyx : ¬ y.toNat = x.toNat := fun h => hxy h.symm
        rw [if_neg hxy, if_neg hyx]
        rcases Nat.lt_or_ge x.toNat y.toNat with hlt | hge
        · exact Or.inl (decide_eq_true hlt)
        · exact Or.inr (decide_eq_true (by omega))

theorem lexLeChars_trans : ∀ a b c : List Char, lexLeChars a b = true →
    lexLeChars b c = true → lexLeChars a c = true := by
  intro a
  induction a with
  | nil => intro b c _ _; rfl
  | cons x xs ih =>
    intro b c hab hbc
    cases b with
    | nil => exact absurd hab (by simp [lexLeChars])
    | cons y ys =>
      cases c with
      | nil => exact absurd hbc (by simp [lexLeChars])
      | cons z zs =>
        rw [lexLeChars_cons_cons] at hab hbc ⊢
        by_cases hxy : x.toNat = y.toNat
        · rw [if_pos hxy] at hab
          by_cases hyz : y.toNat = z.toNat
          · rw [if_pos hyz] at hbc
            rw [if_pos (hxy.trans hyz)]
            exact ih ys zs hab hbc
          · rw [if_neg hyz] at hbc
            have hbc' : y.toNat < z.toNat := of_decide_eq_true hbc
            have hne : ¬ x.toNat = z.toNat := by omega
            rw [if_neg hne]
            exact decide_eq_true (by omega)
        · rw [if_neg hxy] at hab
          have hab' : x.toNat < y.toNat := of_decide_eq_true hab
          by_cases hyz : y.toNat = z.toNat
          · have hne : ¬ x.toNat = z.toNat := by omega
            rw [if_neg hne]
            exact decide_eq_true (by omega)
          · rw [if_neg hyz] at hbc
            have hbc' : y.toNat < z.toNat := of_decide_eq_true hbc
            have hne : ¬ x.toNat = z.toNat := by omega
            rw [if_neg hne]
            exact decide_eq_true (by omega)

theorem lexLeChars_antisymm : ∀ a b : List Char, lexLeChars a b = true →
    lexLeChars b a = true → a = b := by
  intro a
  induction a with
  | nil =>
    intro b hab hba
    cases b with
    | nil => rfl
    | cons y ys => exact absurd hba (by simp [lexLeChars])
  | cons x xs ih =>
    intro b hab hba
    cases b with
    | nil => exact absurd hab (by simp [lexLeChars])
    | cons y ys =>
      rw [lexLeChars_cons_cons] at hab hba
      by_cases hxy : x.toNat = y.toNat
      · rw [if_pos hxy] at hab
        rw [if_pos hxy.symm] at hba
        rw [char_toNat_inj hxy, ih ys hab hba]
      · have hyx : ¬ y.toNat = x.toNat := fun h => hxy h.symm
        rw [if_neg hxy] at hab
        rw [if_neg hyx] at hba
        have h1 := of_decide_eq_true hab
        have h2 := of_decide_eq_true hba
        omega

theorem strLe_total (a b : String) : strLe a b = true ∨ strLe b a = true :=
  lexLeChars_total a.data b.data

theorem strLe_trans (a b c : String) (hab : strLe a b = true)
    (hbc : strLe b c = true) : strLe a c = true :=
  lexLeChars_trans a.data b.data c.data hab hbc

theorem strLe_antisymm (a b : String) (hab : strLe a b = true)
    (hba : strLe b a = true) : a = b :=
  String.ext (lexLeChars_antisymm a.data b.data hab hba)

theorem canonFilters_eq_of_lookup_eq (m₁ m₂ : List (String × UiFilter))
    (h₁ : (m₁.map Prod.fst).Nodup) (h₂ : (m₂.map Prod.fst).Nodup)
    (h : ∀ k, dictGet? m₁ k = dictGet? m₂ k) :
    canonFilters m₁ = canonFilters m₂ := by
  haveI hTot : IsTotal String (fun a b => strLe a b = true) := ⟨strLe_total⟩
  haveI hTr : IsTrans String (fun a b => strLe a b = true) := ⟨strLe_trans⟩
  haveI hAnti : IsAntisymm String (fun a b => strLe a b = true) := ⟨strLe_antisymm⟩
  unfold canonFilters
  have hmem : ∀ k, k ∈ m₁.map Prod.fst ↔ k ∈ m₂.map Prod.fst := fun k => by
    rw [← dictGet?_isSome_iff_mem, ← dictGet?_isSome_iff_mem, h k]
  have hperm : List.Perm (m₁.map Prod.fst) (m₂.map Prod.fst) :=
    (List.perm_ext_iff_of_nodup h₁ h₂).mpr hmem
  have hsorted : List.insertionSort (fun a b => strLe a b = true) (m₁.map Prod.fst) =
      List.insertionSort (fun a b => strLe a b = true) (m₂.map Prod.fst) := by
    refine List.eq_of_perm_of_sorted ?_
      (List.sorted_insertionSort _ _) (List.sorted_insertionSort _ _)
    exact ((List.perm_insertionSort _ _).trans hperm).trans
      (List.perm_insertionSort _ _).symm
  rw [hsorted]
  apply List.map_congr_left
  intro k _
  rw [h k]

/-- C8: storing insights for a filter context and fetching with the same
context returns the stored entry; after a store, `should_generate` for that
context is `false` at every time (no recomputation); and — because the cache
key normalises the serialisation order of the `filters` mapping — two filter
mappings produce the same cache key exactly when they are equal as maps, so
key-order permutations share one entry while genuinely different mappings
never merge. -/
theorem c8_insights_cache :
    (∀ (ic : InsightsCache) (fm : List (String × UiFilter)) (ins : String) (t : ℚ),
      cacheGetCached (cacheStore ic (some ⟨fm⟩) ins t) (some ⟨fm⟩) = some ⟨ins, t⟩) ∧
    (∀ (ic : InsightsCache) (fm : List (String × UiFilter)) (ins : String) (t now : ℚ),
      shouldGenerate (cacheStore ic (some ⟨fm⟩) ins t) (some ⟨fm⟩) now = false) ∧
    (∀ m₁ m₂ : List (String × UiFilter),
      (m₁.map Prod.fst).Nodup → (m₂.map Prod.fst).Nodup →
      ((∀ k, dictGet? m₁ k = dictGet? m₂ k) ↔ canonFilters m₁ = canonFilters m₂)) := by
  refine ⟨?_, ?_, ?_⟩
  · intro ic fm ins t
    simp [cacheGetCached, cacheStore, getContextHash, dictGet?_dictInsert_self]
  · intro ic fm ins t now
    unfold shouldGenerate
    split
    · rfl
    · simp [cacheStore, getContextHash, dictGet?_dictInsert_self]
  · intro m₁ m₂ h₁ h₂
    constructor
    · exact canonFilters_eq_of_lookup_eq m₁ m₂ h₁ h₂
    · intro hc k
      rw [← dictGet?_canonFilters m₁ k, hc, dictGet?_canonFilters m₂ k]

/-- Witness for C8: a concrete store-then-fetch round trip, and the same
two-column mapping serialised in opposite key orders yields one cache key,
hence agreeing lookups. -/
theorem c8_insights_cache_witness :
    cacheGetCached (cacheStore ⟨[], 0⟩ (some ⟨fmA⟩) "insight text" 2) (some ⟨fmA⟩) =
      some ⟨"insight text", 2⟩ ∧
    dictGet? fmA "AIRLINE" = dictGet? fmB "AIRLINE" :=
  ⟨c8_insights_cache.1 ⟨[], 0⟩ fmA "insight text" 2,
   (c8_insights_cache.2.2 fmA fmB (by decide) (by decide)).mpr (by decide) "AIRLINE"⟩

/-! ## Claim C1: retry policy of the hardened query executor -/

/-- C1: for every query, when the transport answers every attempt with one of
the transient status codes (429, 500, 502, 503, 504), the hardened executor
performs exactly 3 POST attempts, sleeping the exponential backoff delays
`[2^0, 2^1]` between them, and then surfaces `RemoteError` with that status;
and when the first response carries a non-transient failure status
(400, 401, 403, 404) it performs exactly one POST attempt with no retry and
no backoff, surfacing that status's classified error. -/
theorem c1_hardened_retry_policy (cfg : PbiConfig) (idp : Unit → TokenResp)
    (transport : String → Nat → TransportRes) (q : String)
    (hTok : (getPowerBIAccessToken cfg idp).1.2 = none) :
    (∀ s body, s ∈ transientStatusCodes → (∀ i, transport q i = .ok (s, body)) →
      executeDaxQueryHardened cfg idp transport q =
        (.error (.remoteError s), 3, [1, 2])) ∧
    (∀ s body, s ∈ [400, 401, 403, 404] → transport q 0 = .ok (s, body) →
      executeDaxQueryHardened cfg idp transport q =
        (classifyStatusSpec s body, 1, []) ∧
      ∃ f, classifyStatusSpec s body = .error f) := by
  constructor
  · intro s body hs htr
    simp only [executeDaxQueryHardened, hTok, pyTruthyS_none, Bool.false_eq_true,
      if_false]
    show hardenedLoop (transport q) 0 3 = _
    rw [hardenedLoop, htr 0, hardenedLoop, htr 1, hardenedLoop, htr 2]
    simp [hs, backoffDelay]
  · intro s body hs htr
    simp only [List.mem_cons, List.not_mem_nil, or_false] at hs
    have hnt : s ∉ transientStatusCodes := by
      rcases hs with rfl | rfl | rfl | rfl <;> decide
    constructor
    · simp only [executeDaxQueryHardened, hTok, pyTruthyS_none, Bool.false_eq_true,
        if_false]
      show hardenedLoop (transport q) 0 3 = _
      rw [hardenedLoop, htr]
      simp [hnt]
    · rcases hs with rfl | rfl | rfl | rfl
      · exact ⟨.queryError (specErrorField body "code" "")
          (specErrorField body "message" "Invalid query"), by simp [classifyStatusSpec]⟩
      · exact ⟨.authError "unauthorized", by simp [classifyStatusSpec]⟩
      · exact ⟨.authError "forbidden", by simp [classifyStatusSpec]⟩
      · exact ⟨.notFoundError, by simp [classifyStatusSpec]⟩

/-- Witness for C1: a transport constantly answering 503 is retried up to 3
attempts with backoff delays [1, 2] before `RemoteError 503`; a transport
answering 401 gets exactly one attempt and `AuthError`. -/
theorem c1_hardened_retry_policy_witness :
    executeDaxQueryHardened cfgAllSet idpOk (fun _ _ => .ok (503, Json.null)) "q" =
      (.error (.remoteError 503), 3, [1, 2]) ∧
    executeDaxQueryHardened cfgAllSet idpOk (fun _ _ => .ok (401, Json.null)) "q" =
      (.error (.authError "unauthorized"), 1, []) := by
  constructor
  · exact (c1_hardened_retry_policy cfgAllSet idpOk (fun _ _ => .ok (503, Json.null)) "q"
      rfl).1 503 Json.null (by decide) (fun _ => rfl)
  · have h := (c1_hardened_retry_policy cfgAllSet idpOk (fun _ _ => .ok (401, Json.null)) "q"
      rfl).2 401 Json.null (by decide) rfl
    rw [h.1]
    rfl
